import Mathlib

/-!
Verification of the NattyCheck API (`src/natty-api/main.py`) against its
natural-language specification.

The source is a single FastAPI application exposing `GET /health` and a
synchronous `POST /analyze` that validates three uploaded images, forwards
them to an external vision provider, parses the provider's reply as JSON and
validates it against the `AnalyzeResponse` pydantic model.

The shallow embedding below translates, from the source:
  * the JSON value domain and `json.loads` (Python's stdlib parser, used on
    line 143 of `main.py`);
  * base64 encoding and the data-URL construction of `_validate_and_b64`;
  * the upload validation of `_validate_and_b64` (content-type allow-list,
    empty check, 6 MiB size check);
  * the lax validation-coercion of the `AnalyzeResponse` pydantic model and
    the `AnalyzeResponse(**data)` validation step;
  * the `analyze` route handler, with the external provider call abstracted
    as an input (`ProviderOutcome`) and an explicit event trace recording
    file reads and the provider call.
-/

set_option autoImplicit false
set_option maxRecDepth 100000

namespace NattyCheck

/-- JSON values, as produced by Python's `json.loads`. Numbers are decimal
scaled integers: `num m e fl` denotes the value `m / 10 ^ e`, and `fl`
records Python's int/float distinction — a literal with a fraction or
exponent part loads as a Python `float`, one without as an `int`.
(Python additionally accepts the non-standard literals `NaN` and
`Infinity`; that floating-point corner is not modelled.) -/
inductive Json where
  | null
  | bool (b : Bool)
  | num (m : Int) (e : Nat) (fl : Bool)
  | str (s : String)
  | arr (elems : List Json)
  | obj (fields : List (String × Json))

/-- Member lookup in a JSON object (objects built by the parser have
distinct keys, mirroring Python dict semantics). -/
def Json.lookup (j : Json) (k : String) : Option Json :=
  match j with
  | .obj kvs => (kvs.find? (fun kv => kv.1 == k)).map (fun kv => kv.2)
  | _ => none

/-- Key insertion with Python-dict overwrite semantics: a repeated key keeps
its first position and takes the latest value. -/
def insertKV : List (String × Json) → String → Json → List (String × Json)
  | [], k, v => [(k, v)]
  | (k', v') :: rest, k, v =>
    if k' == k then (k', v) :: rest else (k', v') :: insertKV rest k v

/-- JSON insignificant whitespace, as accepted by Python's parser. -/
def isJsonWs (c : Char) : Bool :=
  c = ' ' || c = '\t' || c = '\n' || c = '\r'

def skipWs : List Char → List Char
  | [] => []
  | c :: cs => if isJsonWs c then skipWs cs else c :: cs

def parseHexDigit (c : Char) : Option Nat :=
  if c.isDigit then some (c.toNat - 48)
  else if 'a' ≤ c ∧ c ≤ 'f' then some (c.toNat - 87)
  else if 'A' ≤ c ∧ c ≤ 'F' then some (c.toNat - 55)
  else none

/-- Four hex digits of a `\u` escape. -/
def parseU4 : List Char → Option (Nat × List Char)
  | a :: b :: c :: d :: rest =>
    match parseHexDigit a, parseHexDigit b, parseHexDigit c, parseHexDigit d with
    | some x, some y, some z, some w => some (x * 4096 + y * 256 + z * 16 + w, rest)
    | _, _, _, _ => none
  | _ => none

/-- Body of a JSON string literal, after the opening quote. Handles the
standard escapes and `\uXXXX` with surrogate-pair combination. (A lone
surrogate, which Python would keep as an unpaired code unit, has no
`Char` representation and decodes to the default character.) -/
def parseStringBody : Nat → List Char → List Char → Option (String × List Char)
  | 0, _, _ => none
  | fuel + 1, cs, acc =>
    match cs with
    | [] => none
    | '"' :: rest => some (String.mk acc.reverse, rest)
    | '\\' :: esc :: rest =>
      if esc = '"' then parseStringBody fuel rest ('"' :: acc)
      else if esc = '\\' then parseStringBody fuel rest ('\\' :: acc)
      else if esc = '/' then parseStringBody fuel rest ('/' :: acc)
      else if esc = 'b' then parseStringBody fuel rest (Char.ofNat 8 :: acc)
      else if esc = 'f' then parseStringBody fuel rest (Char.ofNat 12 :: acc)
      else if esc = 'n' then parseStringBody fuel rest ('\n' :: acc)
      else if esc = 'r' then parseStringBody fuel rest ('\r' :: acc)
      else if esc = 't' then parseStringBody fuel rest ('\t' :: acc)
      else if esc = 'u' then
        match parseU4 rest with
        | none => none
        | some (n, rest2) =>
          if 0xD800 ≤ n ∧ n ≤ 0xDBFF then
            match rest2 with
            | '\\' :: 'u' :: rest3 =>
              match parseU4 rest3 with
              | none => none
              | some (n2, rest4) =>
                if 0xDC00 ≤ n2 ∧ n2 ≤ 0xDFFF then
                  parseStringBody fuel rest4
                    (Char.ofNat (0x10000 + (n - 0xD800) * 1024 + (n2 - 0xDC00)) :: acc)
                else parseStringBody fuel rest4 (Char.ofNat n2 :: Char.ofNat n :: acc)
            | _ => parseStringBody fuel rest2 (Char.ofNat n :: acc)
          else parseStringBody fuel rest2 (Char.ofNat n :: acc)
      else none
    | c :: rest =>
      if c.toNat < 32 then none else parseStringBody fuel rest (c :: acc)

def takeDigits : List Char → List Char × List Char
  | [] => ([], [])
  | c :: cs =>
    if c.isDigit then
      let (ds, rest) := takeDigits cs
      (c :: ds, rest)
    else ([], c :: cs)

def digitsToNat (ds : List Char) : Nat :=
  ds.foldl (fun acc c => acc * 10 + (c.toNat - 48)) 0

/-- Optional fraction part `.digits`. `none` means a malformed fraction
(a dot with no digit, which Python rejects). -/
def parseFrac : List Char → Option (List Char × List Char)
  | '.' :: r =>
    let (fds, rest) := takeDigits r
    if fds.isEmpty then none else some (fds, rest)
  | cs => some ([], cs)

/-- Strips an optional leading sign, returning whether it was a minus. -/
def signMark : List Char → Bool × List Char
  | '+' :: tail => (false, tail)
  | '-' :: tail => (true, tail)
  | tail => (false, tail)

/-- Optional exponent part `[eE][+-]?digits`. The boolean reports whether an
exponent part was present (its presence makes the literal a float). -/
def parseExp : List Char → Option ((Bool × Int) × List Char)
  | [] => some ((false, 0), [])
  | c :: r =>
    if c = 'e' ∨ c = 'E' then
      let st := signMark r
      let (eds, rest) := takeDigits st.2
      if eds.isEmpty then none
      else
        let mag : Int := (digitsToNat eds : Int)
        some ((true, if st.1 then -mag else mag), rest)
    else some ((false, 0), c :: r)

/-- Leading minus of a number literal. -/
def minusSign : List Char → Bool × List Char
  | '-' :: tail => (true, tail)
  | tail => (false, tail)

/-- A JSON number, with the strict grammar Python enforces (no leading
zeros, no bare dot). Returns mantissa, decimal exponent, and whether the
literal is a Python float (a fraction or exponent part was written). -/
def parseNumber (cs : List Char) : Option ((Int × Nat × Bool) × List Char) :=
  let ns := minusSign cs
  let (ids, cs2) := takeDigits ns.2
  if ids.isEmpty then none
  else if ids.length > 1 ∧ ids.headD '0' = '0' then none
  else
    match parseFrac cs2 with
    | none => none
    | some (fds, cs3) =>
      match parseExp cs3 with
      | none => none
      | some ((hasExp, expVal), cs4) =>
        let mantNat : Nat := digitsToNat (ids ++ fds)
        let signed : Int := if ns.1 then -(mantNat : Int) else (mantNat : Int)
        let isFl : Bool := !fds.isEmpty || hasExp
        let e : Int := expVal - (fds.length : Int)
        if 0 ≤ e then some ((signed * (10 : Int) ^ e.toNat, 0, isFl), cs4)
        else some ((signed, (-e).toNat, isFl), cs4)

mutual

/-- One JSON value, recursive-descent with fuel. -/
def parseVal : Nat → List Char → Option (Json × List Char)
  | 0, _ => none
  | fuel + 1, cs =>
    match skipWs cs with
    | [] => none
    | c :: rest =>
      if c = '\x7b' then parseMembersStart fuel rest
      else if c = '[' then parseElemsStart fuel rest
      else if c = '"' then
        match parseStringBody (rest.length + 1) rest [] with
        | some (s, r) => some (.str s, r)
        | none => none
      else if c = 't' then
        match rest with
        | 'r' :: 'u' :: 'e' :: r => some (.bool true, r)
        | _ => none
      else if c = 'f' then
        match rest with
        | 'a' :: 'l' :: 's' :: 'e' :: r => some (.bool false, r)
        | _ => none
      else if c = 'n' then
        match rest with
        | 'u' :: 'l' :: 'l' :: r => some (.null, r)
        | _ => none
      else if c = '-' ∨ c.isDigit then
        match parseNumber (c :: rest) with
        | some ((m, e, fl), r) => some (.num m e fl, r)
        | none => none
      else none

/-- Object body after the opening brace. -/
def parseMembersStart : Nat → List Char → Option (Json × List Char)
  | 0, _ => none
  | fuel + 1, cs =>
    match skipWs cs with
    | '\x7d' :: rest => some (.obj [], rest)
    | other => parseMembers fuel other []

/-- Non-empty member list of an object. -/
def parseMembers : Nat → List Char → List (String × Json) → Option (Json × List Char)
  | 0, _, _ => none
  | fuel + 1, cs, acc =>
    match skipWs cs with
    | '"' :: rest =>
      match parseStringBody (rest.length + 1) rest [] with
      | none => none
      | some (k, r1) =>
        match skipWs r1 with
        | ':' :: r2 =>
          match parseVal fuel r2 with
          | none => none
          | some (v, r3) =>
            let acc' := insertKV acc k v
            match skipWs r3 with
            | ',' :: r4 => parseMembers fuel r4 acc'
            | '\x7d' :: r4 => some (.obj acc', r4)
            | _ => none
        | _ => none
    | _ => none

/-- Array body after the opening bracket. -/
def parseElemsStart : Nat → List Char → Option (Json × List Char)
  | 0, _ => none
  | fuel + 1, cs =>
    match skipWs cs with
    | ']' :: rest => some (.arr [], rest)
    | other => parseElems fuel other []

/-- Non-empty element list of an array. -/
def parseElems : Nat → List Char → List Json → Option (Json × List Char)
  | 0, _, _ => none
  | fuel + 1, cs, acc =>
    match parseVal fuel cs with
    | none => none
    | some (v, r) =>
      match skipWs r with
      | ',' :: r2 => parseElems fuel r2 (acc ++ [v])
      | ']' :: r2 => some (.arr (acc ++ [v]), r2)
      | _ => none

end

/-- Python's `json.loads`: parse a complete JSON document, allowing only
trailing whitespace. The fuel `4 * length + 8` dominates the recursion
depth, which consumes at least one character for every three calls. -/
def jsonLoads (s : String) : Option Json :=
  let cs := s.toList
  match parseVal (4 * cs.length + 8) cs with
  | some (j, rest) => if (skipWs rest).isEmpty then some j else none
  | none => none

/-! ## Images, base64 and the data URL (`_validate_and_b64`) -/

/-- An uploaded multipart file part: its declared content type and the bytes
returned by `img.file.read()`. -/
structure UploadFile where
  content_type : String
  data : List Nat

def charsPrefixOf : List Char → List Char → Bool
  | [], _ => true
  | _ :: _, [] => false
  | a :: as, b :: bs => a == b && charsPrefixOf as bs

def charsInfixOf (needle : List Char) : List Char → Bool
  | [] => needle.isEmpty
  | c :: cs => charsPrefixOf needle (c :: cs) || charsInfixOf needle cs

/-- Python's substring operator `needle in hay` on strings. -/
def pyIn (needle hay : String) : Bool :=
  charsInfixOf needle.toList hay.toList

/-- Standard base64 alphabet. -/
def b64Alphabet : List Char :=
  "ABCDEFGHIJKLMNOPQRSTUVWXYZabcdefghijklmnopqrstuvwxyz0123456789+/".toList

def b64Char (n : Nat) : Char := b64Alphabet.getD n 'A'

/-- RFC 4648 base64 of a byte string, as `base64.b64encode(...).decode("ascii")`. -/
def b64Encode : List Nat → String
  | [] => ""
  | [b1] =>
    String.mk [b64Char (b1 / 4 % 64), b64Char (b1 % 4 * 16), '=', '=']
  | [b1, b2] =>
    String.mk [b64Char (b1 / 4 % 64), b64Char (b1 % 4 * 16 + b2 / 16 % 16),
      b64Char (b2 % 16 * 4), '=']
  | b1 :: b2 :: b3 :: rest =>
    String.mk [b64Char (b1 / 4 % 64), b64Char (b1 % 4 * 16 + b2 / 16 % 16),
      b64Char (b2 % 16 * 4 + b3 / 64 % 4), b64Char (b3 % 64)] ++ b64Encode rest

/-- Mime label chosen for the data URL on line 67 of `main.py`: jpeg exactly
when the content type contains the substring `jpeg` or `jpg`, else png. -/
def dataUrlMime (content_type : String) : String :=
  if pyIn "jpeg" content_type || pyIn "jpg" content_type then "image/jpeg"
  else "image/png"

/-- The `data:<mime>;base64,<b64>` string returned by `_validate_and_b64`. -/
def dataUrl (content_type : String) (raw : List Nat) : String :=
  "data:" ++ dataUrlMime content_type ++ ";base64," ++ b64Encode raw

/-! ## Upload validation -/

/-- A raised `fastapi.HTTPException`, rendered by the framework as a response
with this status code and the body `{"detail": <detail>}`. -/
structure HTTPException where
  status_code : Nat
  detail : String

/-- Observable side effects of the `analyze` handler: reading an uploaded
file's bytes, and calling the inference provider. -/
inductive Event where
  | readFile (field : String)
  | providerCall

/-- Maximum accepted image size: `6 * 1024 * 1024` bytes (line 53). -/
def MAX_BYTES : Nat := 6 * 1024 * 1024

/-- Allowed upload content types (line 54). -/
def ALLOWED_MIME : List String :=
  ["image/jpeg", "image/jpg", "image/png", "image/heic", "image/heif"]

/-- Embedding of `_validate_and_b64` (lines 56-68): reject a disallowed
content type with 400 before reading the file, then read the bytes and
reject an empty read with 400 and an over-`MAX_BYTES` read with 413,
otherwise return the data URL. Alongside the result, the list of read
events that the call performs. -/
def validate_and_b64 (img : UploadFile) (field : String) :
    Except HTTPException String × List Event :=
  if img.content_type ∉ ALLOWED_MIME then
    (.error ⟨400, "Unsupported content-type: " ++ img.content_type⟩, [])
  else
    let raw := img.data
    if raw = [] then
      (.error ⟨400, "Empty file"⟩, [.readFile field])
    else if raw.length > MAX_BYTES then
      (.error ⟨413, "Image too large (> 6MB)"⟩, [.readFile field])
    else
      (.ok (dataUrl img.content_type raw), [.readFile field])

/-! ## The `AnalyzeResponse` pydantic model

Pydantic's default ("lax") validation does not merely type-check a value:
it coerces it to the declared field type, and the coerced value is what the
framework serializes back. The coercions below embed that behaviour on the
value domain the JSON parser can produce: an `int` field turns an
integral-valued float or an integer-form string into the integer; a `float`
field turns any number or a decimal-form string into a float; a `str` field
accepts exactly strings; `Dict[str, T]` coerces each member value. (Lax
mode has further float-only corners — the strings `".5"`, `"inf"`, `"nan"`
— which are outside the modelled number domain.) -/

/-- Strip surrounding whitespace from a character list. -/
def trimWs (cs : List Char) : List Char :=
  ((cs.dropWhile Char.isWhitespace).reverse.dropWhile Char.isWhitespace).reverse

/-- An integer-form string, as pydantic's lax mode accepts for an `int`
field: optional surrounding whitespace, an optional sign, then digits. -/
def strAsInt (s : String) : Option Int :=
  let cs := trimWs s.toList
  let sm := signMark cs
  let (ds, rest) := takeDigits sm.2
  if ds.isEmpty || !rest.isEmpty then none
  else some (if sm.1 then -(digitsToNat ds : Int) else (digitsToNat ds : Int))

/-- A decimal-form string, as pydantic's lax mode accepts for a `float`
field: optional surrounding whitespace and an optional leading plus, then a
number in the decimal grammar. -/
def strAsFloat (s : String) : Option (Int × Nat) :=
  let cs := trimWs s.toList
  let body := match cs with
    | '+' :: tail => tail
    | other => other
  match parseNumber body with
  | some ((m, e, _), rest) => if rest.isEmpty then some (m, e) else none
  | none => none

/-- Lax coercion to an `int` field: an int, a float of integral value, or an
integer-form string; the validated value is the integer. -/
def coerceInt : Json → Option Json
  | .num m e _ =>
    if m % (10 : Int) ^ e = 0 then some (.num (m / (10 : Int) ^ e) 0 false)
    else none
  | .str s =>
    match strAsInt s with
    | some n => some (.num n 0 false)
    | none => none
  | _ => none

/-- Lax coercion to a `float` field: any number (an int becomes a float) or
a decimal-form string; the validated value is a float. -/
def coerceFloat : Json → Option Json
  | .num m e _ => some (.num m e true)
  | .str s =>
    match strAsFloat s with
    | some (m, e) => some (.num m e true)
    | none => none
  | _ => none

/-- A `str` field accepts exactly strings (no coercion from numbers). -/
def coerceStr : Json → Option Json
  | .str s => some (.str s)
  | _ => none

/-- Coerce every value of a member list, failing if any value fails. -/
def coerceMembers (f : Json → Option Json) :
    List (String × Json) → Option (List (String × Json))
  | [] => some []
  | (k, v) :: rest =>
    match f v, coerceMembers f rest with
    | some v', some rest' => some ((k, v') :: rest')
    | _, _ => none

/-- Lax coercion to a `Dict[str, T]` field: an object whose member values
all coerce to `T`. -/
def coerceDictOf (f : Json → Option Json) : Json → Option Json
  | .obj kvs =>
    match coerceMembers f kvs with
    | some kvs' => some (.obj kvs')
    | none => none
  | _ => none

/-- An `Any` field accepts every value unchanged. -/
def coerceAny (j : Json) : Option Json := some j

/-- The declared fields of the `AnalyzeResponse` model (lines 42-50), in
declaration order, each with its lax validation-coercion. -/
def reportFields : List (String × (Json → Option Json)) :=
  [("overallScore", coerceInt),
   ("confidence", coerceFloat),
   ("summary", coerceDictOf coerceInt),
   ("natty", coerceDictOf coerceAny),
   ("ratios", coerceDictOf coerceFloat),
   ("posture", coerceDictOf coerceAny),
   ("quality", coerceDictOf (coerceDictOf coerceAny)),
   ("completedAt", coerceStr)]

/-- Validate-and-coerce the declared fields against a JSON object, producing
the model's field list (what the framework serializes back) or the first
validation error. -/
def checkFields (j : Json) : List (String × (Json → Option Json)) →
    Except String (List (String × Json))
  | [] => .ok []
  | (name, coer) :: rest =>
    match j.lookup name with
    | none => .error ("field required: " ++ name)
    | some v =>
      match coer v with
      | some v' => (checkFields j rest).map (fun tl => (name, v') :: tl)
      | none => .error ("value is not of the expected type: " ++ name)

/-- Embedding of `AnalyzeResponse(**data)` (line 150): fails on a non-object
(the `**` unpacking raises), requires every declared field to be present
with a value its lax coercion accepts, ignores extra members (pydantic's
default), and yields the declared fields with their coerced values, which
is what the framework serializes back on success. -/
def validateReport (j : Json) : Except String (List (String × Json)) :=
  match j with
  | .obj _ => checkFields j reportFields
  | _ => .error "argument after ** must be a mapping"

/-! ## The HTTP surface -/

/-- An HTTP response: status code and JSON body. -/
structure HttpResponse where
  status_code : Nat
  body : Json

/-- How FastAPI renders a raised `HTTPException`. -/
def renderHTTPException (e : HTTPException) : HttpResponse :=
  ⟨e.status_code, .obj [("detail", .str e.detail)]⟩

/-- Outcome of the external provider call `client.chat.completions.create`
(lines 133-141): either the call raises, or it completes and
`resp.choices[0].message.content` is the given optional string. -/
inductive ProviderOutcome where
  | raised (msg : String)
  | completed (content : Option String)

/-- The credential read at startup: `os.getenv("OPENAI_API_KEY", "")`
(line 23). The module also constructs the SDK client and continues —
an absent key does not crash the process (lines 24-28). -/
def OPENAI_API_KEY (env : Option String) : String := env.getD ""

/-- Embedding of the `GET /health` route (lines 96-98). -/
def health : HttpResponse := ⟨200, .obj [("ok", .bool true)]⟩

/-- Embedding of the `POST /analyze` route (lines 100-155), with the
provider call abstracted as `provider`. Returns the response together with
the trace of file reads and provider calls the handler performs:
  1. missing credential → 400 before anything else;
  2. validate and encode the three images in order, propagating the first
     `HTTPException`;
  3. call the provider; a raised call, or unparseable content, → 502
     "AI parsing error"; absent or empty content is replaced by `"{}"`
     before parsing (the Python `or "{}"` on line 142);
  4. validate the parsed JSON against the model: failure → 502
     `SchemaMismatch` body carrying the parsed JSON; success → 200 with the
     validated report. -/
def analyze (apiKey : String) (front side back : UploadFile)
    (provider : ProviderOutcome) : HttpResponse × List Event :=
  if apiKey = "" then
    (renderHTTPException ⟨400, "OPENAI_API_KEY is not set on the server."⟩, [])
  else
    let (rf, ef) := validate_and_b64 front "front"
    match rf with
    | .error e => (renderHTTPException e, ef)
    | .ok _front_b64 =>
      let (rs, es) := validate_and_b64 side "side"
      match rs with
      | .error e => (renderHTTPException e, ef ++ es)
      | .ok _side_b64 =>
        let (rb, eb) := validate_and_b64 back "back"
        match rb with
        | .error e => (renderHTTPException e, ef ++ es ++ eb)
        | .ok _back_b64 =>
          let evs := ef ++ es ++ eb ++ [Event.providerCall]
          match provider with
          | .raised msg =>
            (renderHTTPException ⟨502, "AI parsing error: " ++ msg⟩, evs)
          | .completed content =>
            let raw : String :=
              match content with
              | none => "\x7b\x7d"
              | some s => if s = "" then "\x7b\x7d" else s
            match jsonLoads raw with
            | none =>
              (renderHTTPException ⟨502, "AI parsing error: invalid JSON"⟩, evs)
            | some data =>
              match validateReport data with
              | .error err =>
                (⟨502, .obj [("error", .str "SchemaMismatch"), ("raw", data),
                  ("detail", .str err)]⟩, evs)
              | .ok fields => (⟨200, .obj fields⟩, evs)

/-- The post-validation tail of `analyze`: the response determined by the
provider outcome alone. `analyze_valid` proves that on a configured key and
three valid images, `analyze` reduces to this stage. -/
def providerStage (provider : ProviderOutcome) : HttpResponse :=
  match provider with
  | .raised msg => renderHTTPException ⟨502, "AI parsing error: " ++ msg⟩
  | .completed content =>
    let raw : String :=
      match content with
      | none => "\x7b\x7d"
      | some s => if s = "" then "\x7b\x7d" else s
    match jsonLoads raw with
    | none => renderHTTPException ⟨502, "AI parsing error: invalid JSON"⟩
    | some data =>
      match validateReport data with
      | .error err =>
        ⟨502, .obj [("error", .str "SchemaMismatch"), ("raw", data),
          ("detail", .str err)]⟩
      | .ok fields => ⟨200, .obj fields⟩

/-- A minimal valid PNG part, used as a concrete input. -/
def tinyPng : UploadFile := ⟨"image/png", [0]⟩

/-- A minimal valid JPEG part. -/
def tinyJpeg : UploadFile := ⟨"image/jpeg", [1]⟩

/-- A minimal valid HEIC part. -/
def tinyHeic : UploadFile := ⟨"image/heic", [9]⟩

/-- A part with a disallowed content type. -/
def tinyText : UploadFile := ⟨"text/plain", [1]⟩

/-- A PNG part of exactly the maximum allowed size. -/
def maxPng : UploadFile := ⟨"image/png", List.replicate MAX_BYTES 0⟩

/-- A PNG part one byte over the maximum allowed size. -/
def oversizedPng : UploadFile := ⟨"image/png", List.replicate (MAX_BYTES + 1) 0⟩

/-- A provider reply satisfying every declared field of the report schema,
as the member list of its JSON object; every value is already of its
field's type, so validation returns it unchanged. -/
def goodReportFields : List (String × Json) :=
  [("overallScore", .num 80 0 false),
   ("confidence", .num 9 1 true),
   ("summary", .obj [("upperBody", .num 80 0 false),
     ("lowerBody", .num 75 0 false), ("symmetry", .num 85 0 false),
     ("posture", .num 70 0 false)]),
   ("natty", .obj [("status", .str "NATURAL"), ("confidence", .num 8 1 true)]),
   ("ratios", .obj [("shoulderToWaist", .num 15 1 true),
     ("quadToHeight", .num 6 1 true), ("armToWaist", .num 5 1 true)]),
   ("posture", .obj [("grade", .str "Good"),
     ("spinalAlignmentDeltaDeg", .num 2 0 false),
     ("scapularBalance", .str "Symmetrical")]),
   ("quality", .obj [("front", .obj [("ok", .bool true), ("notes", .arr [])]),
     ("side", .obj [("ok", .bool true), ("notes", .arr [])]),
     ("back", .obj [("ok", .bool true), ("notes", .arr [])])]),
   ("completedAt", .str "2025-01-01T00:00:00Z")]

/-- The schema-valid provider reply, serialized. -/
def goodReportStr : String :=
  "\x7b\"overallScore\":80,\"confidence\":0.9," ++
  "\"summary\":\x7b\"upperBody\":80,\"lowerBody\":75,\"symmetry\":85,\"posture\":70\x7d," ++
  "\"natty\":\x7b\"status\":\"NATURAL\",\"confidence\":0.8\x7d," ++
  "\"ratios\":\x7b\"shoulderToWaist\":1.5,\"quadToHeight\":0.6,\"armToWaist\":0.5\x7d," ++
  "\"posture\":\x7b\"grade\":\"Good\",\"spinalAlignmentDeltaDeg\":2,\"scapularBalance\":\"Symmetrical\"\x7d," ++
  "\"quality\":\x7b\"front\":\x7b\"ok\":true,\"notes\":[]\x7d,\"side\":\x7b\"ok\":true,\"notes\":[]\x7d,\"back\":\x7b\"ok\":true,\"notes\":[]\x7d\x7d," ++
  "\"completedAt\":\"2025-01-01T00:00:00Z\"\x7d"

/-- The value `json.loads` gives for `goodReportStr`. -/
def goodReportJson : Json := .obj goodReportFields

/-- The schema-valid reply with one extra member `"extra": 1` appended. -/
def extraReportStr : String :=
  "\x7b\"overallScore\":80,\"confidence\":0.9," ++
  "\"summary\":\x7b\"upperBody\":80,\"lowerBody\":75,\"symmetry\":85,\"posture\":70\x7d," ++
  "\"natty\":\x7b\"status\":\"NATURAL\",\"confidence\":0.8\x7d," ++
  "\"ratios\":\x7b\"shoulderToWaist\":1.5,\"quadToHeight\":0.6,\"armToWaist\":0.5\x7d," ++
  "\"posture\":\x7b\"grade\":\"Good\",\"spinalAlignmentDeltaDeg\":2,\"scapularBalance\":\"Symmetrical\"\x7d," ++
  "\"quality\":\x7b\"front\":\x7b\"ok\":true,\"notes\":[]\x7d,\"side\":\x7b\"ok\":true,\"notes\":[]\x7d,\"back\":\x7b\"ok\":true,\"notes\":[]\x7d\x7d," ++
  "\"completedAt\":\"2025-01-01T00:00:00Z\",\"extra\":1\x7d"

/-- The value `json.loads` gives for `extraReportStr`: the schema fields
plus the undeclared member. -/
def extraReportJson : Json :=
  .obj (goodReportFields ++ [("extra", .num 1 0 false)])

/-- A provider reply that the lax validation accepts only through value
coercion: `overallScore` is the float `80.0`, `confidence` and two values
inside `summary`/`ratios` are numeric strings, `lowerBody` is the float
`75.0`, and `shoulderToWaist` is the int `2`. -/
def coercedReportStr : String :=
  "\x7b\"overallScore\":80.0,\"confidence\":\"0.9\"," ++
  "\"summary\":\x7b\"upperBody\":\"80\",\"lowerBody\":75.0,\"symmetry\":85,\"posture\":70\x7d," ++
  "\"natty\":\x7b\"status\":\"NATURAL\",\"confidence\":0.8\x7d," ++
  "\"ratios\":\x7b\"shoulderToWaist\":2,\"quadToHeight\":\"0.6\",\"armToWaist\":0.5\x7d," ++
  "\"posture\":\x7b\"grade\":\"Good\",\"spinalAlignmentDeltaDeg\":2,\"scapularBalance\":\"Symmetrical\"\x7d," ++
  "\"quality\":\x7b\"front\":\x7b\"ok\":true,\"notes\":[]\x7d,\"side\":\x7b\"ok\":true,\"notes\":[]\x7d,\"back\":\x7b\"ok\":true,\"notes\":[]\x7d\x7d," ++
  "\"completedAt\":\"2025-01-01T00:00:00Z\"\x7d"

/-- The value `json.loads` gives for `coercedReportStr`. -/
def coercedReportJson : Json :=
  .obj [("overallScore", .num 800 1 true),
        ("confidence", .str "0.9"),
        ("summary", .obj [("upperBody", .str "80"),
          ("lowerBody", .num 750 1 true), ("symmetry", .num 85 0 false),
          ("posture", .num 70 0 false)]),
        ("natty", .obj [("status", .str "NATURAL"),
          ("confidence", .num 8 1 true)]),
        ("ratios", .obj [("shoulderToWaist", .num 2 0 false),
          ("quadToHeight", .str "0.6"), ("armToWaist", .num 5 1 true)]),
        ("posture", .obj [("grade", .str "Good"),
          ("spinalAlignmentDeltaDeg", .num 2 0 false),
          ("scapularBalance", .str "Symmetrical")]),
        ("quality", .obj [("front", .obj [("ok", .bool true), ("notes", .arr [])]),
          ("side", .obj [("ok", .bool true), ("notes", .arr [])]),
          ("back", .obj [("ok", .bool true), ("notes", .arr [])])]),
        ("completedAt", .str "2025-01-01T00:00:00Z")]

/-- What the program serializes back for `coercedReportStr`: the float
`80.0` has become the int `80`, the numeric strings have become numbers,
and the int `2` in a float field has become the float `2.0`. -/
def coercedReportFields : List (String × Json) :=
  [("overallScore", .num 80 0 false),
   ("confidence", .num 9 1 true),
   ("summary", .obj [("upperBody", .num 80 0 false),
     ("lowerBody", .num 75 0 false), ("symmetry", .num 85 0 false),
     ("posture", .num 70 0 false)]),
   ("natty", .obj [("status", .str "NATURAL"), ("confidence", .num 8 1 true)]),
   ("ratios", .obj [("shoulderToWaist", .num 2 0 true),
     ("quadToHeight", .num 6 1 true), ("armToWaist", .num 5 1 true)]),
   ("posture", .obj [("grade", .str "Good"),
     ("spinalAlignmentDeltaDeg", .num 2 0 false),
     ("scapularBalance", .str "Symmetrical")]),
   ("quality", .obj [("front", .obj [("ok", .bool true), ("notes", .arr [])]),
     ("side", .obj [("ok", .bool true), ("notes", .arr [])]),
     ("back", .obj [("ok", .bool true), ("notes", .arr [])])]),
   ("completedAt", .str "2025-01-01T00:00:00Z")]

/-! ## Reduction lemmas for `validate_and_b64` and `analyze` -/

theorem validate_ok (img : UploadFile) (field : String)
    (h₁ : img.content_type ∈ ALLOWED_MIME) (h₂ : img.data ≠ [])
    (h₃ : img.data.length ≤ MAX_BYTES) :
    validate_and_b64 img field =
      (.ok (dataUrl img.content_type img.data), [.readFile field]) := by
  have h₃' : ¬ img.data.length > MAX_BYTES := by omega
  simp [validate_and_b64, h₁, h₂, h₃']

theorem validate_err_mime (img : UploadFile) (field : String)
    (h₁ : img.content_type ∉ ALLOWED_MIME) :
    validate_and_b64 img field =
      (.error ⟨400, "Unsupported content-type: " ++ img.content_type⟩, []) := by
  simp [validate_and_b64, h₁]

theorem validate_err_empty (img : UploadFile) (field : String)
    (h₁ : img.content_type ∈ ALLOWED_MIME) (h₂ : img.data = []) :
    validate_and_b64 img field =
      (.error ⟨400, "Empty file"⟩, [.readFile field]) := by
  simp [validate_and_b64, h₁, h₂]

theorem validate_err_size (img : UploadFile) (field : String)
    (h₁ : img.content_type ∈ ALLOWED_MIME) (h₃ : img.data.length > MAX_BYTES) :
    validate_and_b64 img field =
      (.error ⟨413, "Image too large (> 6MB)"⟩, [.readFile field]) := by
  have h₂ : img.data ≠ [] := by
    intro h
    rw [h] at h₃
    simp [MAX_BYTES] at h₃
  simp [validate_and_b64, h₁, h₂, h₃]

theorem analyze_valid (key : String) (f s b : UploadFile)
    (provider : ProviderOutcome) (hk : ¬ key = "")
    (hf₁ : f.content_type ∈ ALLOWED_MIME) (hf₂ : f.data ≠ [])
    (hf₃ : f.data.length ≤ MAX_BYTES)
    (hs₁ : s.content_type ∈ ALLOWED_MIME) (hs₂ : s.data ≠ [])
    (hs₃ : s.data.length ≤ MAX_BYTES)
    (hb₁ : b.content_type ∈ ALLOWED_MIME) (hb₂ : b.data ≠ [])
    (hb₃ : b.data.length ≤ MAX_BYTES) :
    analyze key f s b provider =
      (providerStage provider,
       [.readFile "front", .readFile "side", .readFile "back",
        .providerCall]) := by
  rw [analyze, if_neg hk, validate_ok f "front" hf₁ hf₂ hf₃,
    validate_ok s "side" hs₁ hs₂ hs₃, validate_ok b "back" hb₁ hb₂ hb₃]
  cases provider with
  | raised msg => simp [providerStage]
  | completed content =>
    simp only [providerStage]
    split <;> (try split) <;> rfl

/-- What a successful `checkFields` run guarantees, field by field: the
produced list lines up with the spec list — same name, and the value is
the spec's coercion applied to the value looked up in the input JSON. -/
theorem checkFields_ok_spec (j : Json) :
    ∀ (specs : List (String × (Json → Option Json)))
      (out : List (String × Json)),
      checkFields j specs = .ok out →
        List.Forall₂
          (fun spec p => spec.1 = p.1 ∧
            ∃ w, j.lookup spec.1 = some w ∧ spec.2 w = some p.2) specs out := by
  intro specs
  induction specs with
  | nil =>
    intro out h
    simp [checkFields] at h
    subst h
    exact List.Forall₂.nil
  | cons hd tl ih =>
    intro out h
    obtain ⟨name, coer⟩ := hd
    rw [checkFields] at h
    cases hl : j.lookup name with
    | none => rw [hl] at h; exact absurd h (by simp)
    | some v =>
      rw [hl] at h
      dsimp only at h
      cases hc : coer v with
      | none => rw [hc] at h; exact absurd h (by simp)
      | some v' =>
        rw [hc] at h
        dsimp only at h
        cases htl : checkFields j tl with
        | error e => rw [htl] at h; exact absurd h (by simp [Except.map])
        | ok tlOut =>
          rw [htl] at h
          simp only [Except.map] at h
          obtain rfl : out = (name, v') :: tlOut := by
            simpa using h.symm
          exact List.Forall₂.cons ⟨rfl, v, hl, hc⟩ (ih tlOut htl)

/-- Specialization to `validateReport`: the model's field list has exactly
the declared names, in declaration order, and each value is the declared
field's lax coercion of the provider's value. -/
theorem validateReport_ok_spec (j : Json) (out : List (String × Json))
    (h : validateReport j = .ok out) :
    out.map Prod.fst =
      ["overallScore", "confidence", "summary", "natty", "ratios",
       "posture", "quality", "completedAt"] ∧
    List.Forall₂
      (fun spec p => spec.1 = p.1 ∧
        ∃ w, j.lookup spec.1 = some w ∧ spec.2 w = some p.2)
      reportFields out := by
  have hforall : List.Forall₂
      (fun spec p => spec.1 = p.1 ∧
        ∃ w, j.lookup spec.1 = some w ∧ spec.2 w = some p.2)
      reportFields out := by
    cases j with
    | obj kvs => exact checkFields_ok_spec (.obj kvs) reportFields out h
    | null => exact absurd h (by simp [validateReport])
    | bool b => exact absurd h (by simp [validateReport])
    | num m e fl => exact absurd h (by simp [validateReport])
    | str s => exact absurd h (by simp [validateReport])
    | arr xs => exact absurd h (by simp [validateReport])
  refine ⟨?_, hforall⟩
  have hnames : ∀ (specs : List (String × (Json → Option Json)))
      (out' : List (String × Json)),
      List.Forall₂
        (fun spec p => spec.1 = p.1 ∧
          ∃ w, j.lookup spec.1 = some w ∧ spec.2 w = some p.2) specs out' →
      out'.map Prod.fst = specs.map Prod.fst := by
    intro specs
    induction specs with
    | nil =>
      intro out' hf
      cases hf
      rfl
    | cons hd tl ih =>
      intro out' hf
      cases hf with
      | cons h₁ h₂ => rw [List.map_cons, List.map_cons, ← h₁.1, ih _ h₂]
  rw [hnames reportFields out hforall]
  rfl

/-! ## Claims -/

/-- C8: every `GET /health` request returns HTTP 200 with body
`{"ok": true}`; the handler takes no input at all (neither the credential
nor any prior state), so the result is unconditional. -/
theorem health_200_ok :
    health.status_code = 200 ∧ health.body = Json.obj [("ok", Json.bool true)] :=
  ⟨rfl, rfl⟩

/-- C3: when the `OPENAI_API_KEY` environment variable is absent or empty,
the credential read at startup is the empty string, and every analyze call
returns HTTP 400 with the configuration-error detail, with an empty event
trace: no image is read and the provider is never called. (The handler is a
total function, so no input crashes it.) -/
theorem analyze_missing_key_400_no_effects (env : Option String)
    (henv : env = none ∨ env = some "") (f s b : UploadFile)
    (provider : ProviderOutcome) :
    analyze (OPENAI_API_KEY env) f s b provider =
      (⟨400, .obj [("detail", .str "OPENAI_API_KEY is not set on the server.")]⟩,
       []) := by
  have hk : OPENAI_API_KEY env = "" := by
    rcases henv with h | h <;> simp [h, OPENAI_API_KEY]
  simp [analyze, hk, renderHTTPException]

theorem analyze_missing_key_400_no_effects_witness :
    ((none : Option String) = none ∨ (none : Option String) = some "") ∧
    analyze (OPENAI_API_KEY none) tinyPng tinyPng tinyPng (.raised "x") =
      (⟨400, .obj [("detail", .str "OPENAI_API_KEY is not set on the server.")]⟩,
       []) :=
  ⟨Or.inl rfl,
   analyze_missing_key_400_no_effects none (Or.inl rfl) tinyPng tinyPng tinyPng
     (.raised "x")⟩

/-- C6: a single uploaded part makes `_validate_and_b64` raise an
`HTTPException` with status 400 exactly when its content type is not in the
allow-list or its payload is empty; every other outcome (acceptance, or the
413 size rejection) is not a 400. -/
theorem validate_400_iff_mime_or_empty (img : UploadFile) (field : String) :
    (∃ d, (validate_and_b64 img field).1 = .error ⟨400, d⟩) ↔
      (img.content_type ∉ ALLOWED_MIME ∨ img.data = []) := by
  by_cases h₁ : img.content_type ∈ ALLOWED_MIME
  · by_cases h₂ : img.data = []
    · rw [validate_err_empty img field h₁ h₂]
      simp [h₂]
    · by_cases h₃ : img.data.length > MAX_BYTES
      · rw [validate_err_size img field h₁ h₃]
        simp [h₁, h₂]
      · rw [validate_ok img field h₁ h₂ (by omega)]
        simp [h₁, h₂]
  · rw [validate_err_mime img field h₁]
    simp [h₁]

theorem validate_400_iff_mime_or_empty_witness :
    (∃ d, (validate_and_b64 tinyText "front").1 = .error ⟨400, d⟩) ↔
      (tinyText.content_type ∉ ALLOWED_MIME ∨ tinyText.data = []) :=
  validate_400_iff_mime_or_empty tinyText "front"

/-- C5: the size check is an exact boundary: with an allowed content type,
a payload of exactly `MAX_BYTES` bytes is accepted (the data URL is
produced), while `MAX_BYTES + 1` bytes are rejected with the 413 size
error. -/
theorem validate_size_boundary (a b : UploadFile) (field : String)
    (ha₁ : a.content_type ∈ ALLOWED_MIME) (ha₂ : a.data.length = MAX_BYTES)
    (hb₁ : b.content_type ∈ ALLOWED_MIME)
    (hb₂ : b.data.length = MAX_BYTES + 1) :
    (validate_and_b64 a field).1 = .ok (dataUrl a.content_type a.data) ∧
    (validate_and_b64 b field).1 = .error ⟨413, "Image too large (> 6MB)"⟩ := by
  have ha₃ : a.data ≠ [] := by
    intro h
    rw [h] at ha₂
    simp [MAX_BYTES] at ha₂
  constructor
  · rw [validate_ok a field ha₁ ha₃ (le_of_eq ha₂)]
  · rw [validate_err_size b field hb₁ (by omega)]

theorem validate_size_boundary_witness :
    (maxPng.content_type ∈ ALLOWED_MIME ∧ maxPng.data.length = MAX_BYTES ∧
     oversizedPng.content_type ∈ ALLOWED_MIME ∧
     oversizedPng.data.length = MAX_BYTES + 1) ∧
    ((validate_and_b64 maxPng "front").1 =
        .ok (dataUrl maxPng.content_type maxPng.data) ∧
     (validate_and_b64 oversizedPng "front").1 =
        .error ⟨413, "Image too large (> 6MB)"⟩) :=
  ⟨⟨by decide, by simp [maxPng], by decide, by simp [oversizedPng]⟩,
   validate_size_boundary maxPng oversizedPng "front" (by decide)
     (by simp [maxPng]) (by decide) (by simp [oversizedPng])⟩

/-- C1, counterexample: an analyze request whose front image has an allowed
content type, is non-empty, and is one byte over 6 MiB is rejected with
HTTP status 413, not 400 as claimed (`_validate_and_b64` raises
`HTTPException(status_code=413, ...)` on line 63). -/
theorem analyze_oversized_rejected_413_cex :
    (analyze "k" oversizedPng tinyPng tinyPng (.raised "x")).1.status_code = 413 ∧
    (analyze "k" oversizedPng tinyPng tinyPng (.raised "x")).1.status_code ≠ 400 := by
  have hk : ¬ ("k" : String) = "" := by decide
  have hmem : oversizedPng.content_type ∈ ALLOWED_MIME := by decide
  have hlen : oversizedPng.data.length > MAX_BYTES := by simp [oversizedPng]
  have h := validate_err_size oversizedPng "front" hmem hlen
  have hmain : analyze "k" oversizedPng tinyPng tinyPng (.raised "x") =
      (renderHTTPException ⟨413, "Image too large (> 6MB)"⟩,
       [.readFile "front"]) := by
    rw [analyze, if_neg hk, h]
  rw [hmain]
  exact ⟨rfl, by decide⟩

/-- C1, amended: when the credential is configured and every uploaded part
has an allowed content type and a non-empty payload, a request in which
some part exceeds 6 MiB is rejected with HTTP status 413 (the size error),
not 400. -/
theorem analyze_oversized_status_413 (key : String) (f s b : UploadFile)
    (provider : ProviderOutcome) (hk : ¬ key = "")
    (hf₁ : f.content_type ∈ ALLOWED_MIME) (hf₂ : f.data ≠ [])
    (hs₁ : s.content_type ∈ ALLOWED_MIME) (hs₂ : s.data ≠ [])
    (hb₁ : b.content_type ∈ ALLOWED_MIME) (hb₂ : b.data ≠ [])
    (hover : f.data.length > MAX_BYTES ∨ s.data.length > MAX_BYTES ∨
      b.data.length > MAX_BYTES) :
    (analyze key f s b provider).1.status_code = 413 := by
  by_cases hf : f.data.length > MAX_BYTES
  · simp [analyze, hk, validate_err_size f "front" hf₁ hf, renderHTTPException]
  · have hf₃ : f.data.length ≤ MAX_BYTES := by omega
    by_cases hs : s.data.length > MAX_BYTES
    · simp [analyze, hk, validate_ok f "front" hf₁ hf₂ hf₃,
        validate_err_size s "side" hs₁ hs, renderHTTPException]
    · have hs₃ : s.data.length ≤ MAX_BYTES := by omega
      have hb : b.data.length > MAX_BYTES := by tauto
      simp [analyze, hk, validate_ok f "front" hf₁ hf₂ hf₃,
        validate_ok s "side" hs₁ hs₂ hs₃,
        validate_err_size b "back" hb₁ hb, renderHTTPException]

theorem analyze_oversized_status_413_witness :
    (¬ ("k" : String) = "" ∧ oversizedPng.content_type ∈ ALLOWED_MIME ∧
     oversizedPng.data ≠ [] ∧ oversizedPng.data.length > MAX_BYTES) ∧
    (analyze "k" tinyPng oversizedPng tinyPng (.raised "x")).1.status_code = 413 :=
  ⟨⟨by decide, by decide, by simp [oversizedPng], by simp [oversizedPng]⟩,
   analyze_oversized_status_413 "k" tinyPng oversizedPng tinyPng (.raised "x")
     (by decide) (by decide) (by decide) (by decide) (by simp [oversizedPng])
     (by decide) (by decide)
     (Or.inr (Or.inl (by simp [oversizedPng])))⟩

/-- C4: with a configured key and three valid images, when the provider
call raises, or completes with non-empty content that is not parseable
JSON, the response has status 502 — not any 4xx status — and its detail is
an "AI parsing error" message. -/
theorem analyze_provider_failure_502 (key : String) (f s b : UploadFile)
    (provider : ProviderOutcome) (hk : ¬ key = "")
    (hf₁ : f.content_type ∈ ALLOWED_MIME) (hf₂ : f.data ≠ [])
    (hf₃ : f.data.length ≤ MAX_BYTES)
    (hs₁ : s.content_type ∈ ALLOWED_MIME) (hs₂ : s.data ≠ [])
    (hs₃ : s.data.length ≤ MAX_BYTES)
    (hb₁ : b.content_type ∈ ALLOWED_MIME) (hb₂ : b.data ≠ [])
    (hb₃ : b.data.length ≤ MAX_BYTES)
    (hfail : (∃ m, provider = .raised m) ∨
      ∃ c, provider = .completed (some c) ∧ c ≠ "" ∧ jsonLoads c = none) :
    (analyze key f s b provider).1.status_code = 502 ∧
    ¬ (400 ≤ (analyze key f s b provider).1.status_code ∧
       (analyze key f s b provider).1.status_code ≤ 499) ∧
    ∃ m, (analyze key f s b provider).1.body.lookup "detail" =
      some (.str ("AI parsing error: " ++ m)) := by
  have h := analyze_valid key f s b provider hk hf₁ hf₂ hf₃ hs₁ hs₂ hs₃ hb₁ hb₂ hb₃
  rcases hfail with ⟨m, rfl⟩ | ⟨c, rfl, hc, hparse⟩
  · rw [h]
    exact ⟨rfl, by simp [providerStage, renderHTTPException], ⟨m, rfl⟩⟩
  · have hstage : providerStage (.completed (some c)) =
        renderHTTPException ⟨502, "AI parsing error: invalid JSON"⟩ := by
      simp [providerStage, hc, hparse]
    rw [h, hstage]
    exact ⟨rfl, by simp [renderHTTPException], ⟨"invalid JSON", rfl⟩⟩

theorem analyze_provider_failure_502_witness :
    (¬ ("k" : String) = "" ∧ tinyPng.content_type ∈ ALLOWED_MIME ∧
     tinyPng.data ≠ [] ∧ tinyPng.data.length ≤ MAX_BYTES ∧
     ("not json" : String) ≠ "" ∧ jsonLoads "not json" = none) ∧
    ((analyze "k" tinyPng tinyPng tinyPng
        (.completed (some "not json"))).1.status_code = 502 ∧
     ¬ (400 ≤ (analyze "k" tinyPng tinyPng tinyPng
          (.completed (some "not json"))).1.status_code ∧
        (analyze "k" tinyPng tinyPng tinyPng
          (.completed (some "not json"))).1.status_code ≤ 499) ∧
     ∃ m, (analyze "k" tinyPng tinyPng tinyPng
        (.completed (some "not json"))).1.body.lookup "detail" =
          some (.str ("AI parsing error: " ++ m))) :=
  ⟨⟨by decide, by decide, by decide, by decide, by decide, by rfl⟩,
   analyze_provider_failure_502 "k" tinyPng tinyPng tinyPng
     (.completed (some "not json")) (by decide) (by decide) (by decide)
     (by decide) (by decide) (by decide) (by decide) (by decide) (by decide)
     (by decide)
     (Or.inr ⟨"not json", rfl, by decide, by rfl⟩)⟩

/-- C10: with a configured key and three valid images, when the provider
completes but its message content is missing or empty, the content is
replaced by the string of an empty object, which parses successfully to
the empty JSON object; the request then fails on the SchemaMismatch path
(502, raw equal to the empty object, detail the missing-field error), not
on the "AI parsing error" path. -/
theorem analyze_empty_content_schema_mismatch (key : String)
    (f s b : UploadFile) (content : Option String) (hk : ¬ key = "")
    (hf₁ : f.content_type ∈ ALLOWED_MIME) (hf₂ : f.data ≠ [])
    (hf₃ : f.data.length ≤ MAX_BYTES)
    (hs₁ : s.content_type ∈ ALLOWED_MIME) (hs₂ : s.data ≠ [])
    (hs₃ : s.data.length ≤ MAX_BYTES)
    (hb₁ : b.content_type ∈ ALLOWED_MIME) (hb₂ : b.data ≠ [])
    (hb₃ : b.data.length ≤ MAX_BYTES)
    (hc : content = none ∨ content = some "") :
    jsonLoads "\x7b\x7d" = some (.obj []) ∧
    (analyze key f s b (.completed content)).1 =
      ⟨502, .obj [("error", .str "SchemaMismatch"), ("raw", .obj []),
        ("detail", .str "field required: overallScore")]⟩ := by
  have h := analyze_valid key f s b (.completed content) hk hf₁ hf₂ hf₃ hs₁ hs₂
    hs₃ hb₁ hb₂ hb₃
  refine ⟨by rfl, ?_⟩
  rw [h]
  rcases hc with rfl | rfl <;> rfl

theorem analyze_empty_content_schema_mismatch_witness :
    (¬ ("k" : String) = "" ∧ tinyPng.content_type ∈ ALLOWED_MIME ∧
     tinyPng.data ≠ [] ∧ tinyPng.data.length ≤ MAX_BYTES ∧
     ((none : Option String) = none ∨ (none : Option String) = some "")) ∧
    (jsonLoads "\x7b\x7d" = some (.obj []) ∧
     (analyze "k" tinyPng tinyPng tinyPng (.completed none)).1 =
       ⟨502, .obj [("error", .str "SchemaMismatch"), ("raw", .obj []),
         ("detail", .str "field required: overallScore")]⟩) :=
  ⟨⟨by decide, by decide, by decide, by decide, Or.inl rfl⟩,
   analyze_empty_content_schema_mismatch "k" tinyPng tinyPng tinyPng none
     (by decide) (by decide) (by decide) (by decide) (by decide) (by decide)
     (by decide) (by decide) (by decide) (by decide) (Or.inl rfl)⟩

/-- C2: with a configured key and three valid images, when the provider
completes with non-empty parseable JSON that fails the report-schema
validation, the response has status 502 and its body carries the fields
`error = "SchemaMismatch"`, `raw` equal to the provider's parsed JSON, and
`detail` equal to the validation error. -/
theorem analyze_schema_mismatch_502 (key : String) (f s b : UploadFile)
    (content : String) (j : Json) (e : String) (hk : ¬ key = "")
    (hf₁ : f.content_type ∈ ALLOWED_MIME) (hf₂ : f.data ≠ [])
    (hf₃ : f.data.length ≤ MAX_BYTES)
    (hs₁ : s.content_type ∈ ALLOWED_MIME) (hs₂ : s.data ≠ [])
    (hs₃ : s.data.length ≤ MAX_BYTES)
    (hb₁ : b.content_type ∈ ALLOWED_MIME) (hb₂ : b.data ≠ [])
    (hb₃ : b.data.length ≤ MAX_BYTES)
    (hc : ¬ content = "") (hparse : jsonLoads content = some j)
    (hval : validateReport j = .error e) :
    (analyze key f s b (.completed (some content))).1 =
      ⟨502, .obj [("error", .str "SchemaMismatch"), ("raw", j),
        ("detail", .str e)]⟩ ∧
    (analyze key f s b (.completed (some content))).1.body.lookup "error" =
      some (.str "SchemaMismatch") ∧
    (analyze key f s b (.completed (some content))).1.body.lookup "raw" =
      some j ∧
    (analyze key f s b (.completed (some content))).1.body.lookup "detail" =
      some (.str e) := by
  have h := analyze_valid key f s b (.completed (some content)) hk hf₁ hf₂ hf₃
    hs₁ hs₂ hs₃ hb₁ hb₂ hb₃
  have hstage : providerStage (.completed (some content)) =
      ⟨502, .obj [("error", .str "SchemaMismatch"), ("raw", j),
        ("detail", .str e)]⟩ := by
    simp [providerStage, hc, hparse, hval]
  rw [h, hstage]
  exact ⟨rfl, rfl, rfl, rfl⟩

theorem analyze_schema_mismatch_502_witness :
    (¬ ("k" : String) = "" ∧ ¬ ("\x7b\x7d" : String) = "" ∧
     jsonLoads "\x7b\x7d" = some (.obj []) ∧
     validateReport (.obj []) = .error "field required: overallScore") ∧
    (analyze "k" tinyPng tinyPng tinyPng
        (.completed (some "\x7b\x7d"))).1 =
      ⟨502, .obj [("error", .str "SchemaMismatch"), ("raw", .obj []),
        ("detail", .str "field required: overallScore")]⟩ :=
  ⟨⟨by decide, by decide, by rfl, by rfl⟩,
   (analyze_schema_mismatch_502 "k" tinyPng tinyPng tinyPng "\x7b\x7d"
     (.obj []) "field required: overallScore" (by decide) (by decide)
     (by decide) (by decide) (by decide) (by decide) (by decide) (by decide)
     (by decide) (by decide) (by decide) (by rfl) (by rfl)).1⟩

/-- C7, counterexample: a provider JSON that the report schema accepts but
that carries one extra member `extra` yields a 200 response whose body does
not contain that member — the response is not the provider's JSON verbatim:
an undeclared field is dropped. -/
theorem analyze_extra_field_dropped_cex :
    jsonLoads extraReportStr = some extraReportJson ∧
    extraReportJson.lookup "extra" = some (.num 1 0 false) ∧
    (validateReport extraReportJson).isOk = true ∧
    (analyze "k" tinyPng tinyPng tinyPng
      (.completed (some extraReportStr))).1.status_code = 200 ∧
    (analyze "k" tinyPng tinyPng tinyPng
      (.completed (some extraReportStr))).1.body.lookup "extra" = none :=
  ⟨rfl, rfl, rfl, rfl, rfl⟩

/-- C7, amended: with a configured key and three valid images, when the
provider completes with non-empty parseable JSON that the report schema's
lax validation accepts, the response is 200 and its body consists of
exactly the eight declared schema fields, in declaration order, each
carrying the result of that field's lax validation-coercion applied to the
provider's value (so a float `80.0` comes back as the int `80`, an int in a
float field as a float, a numeric string as the number); members of the
provider's JSON outside the schema are dropped. The response is therefore
not in general the provider's JSON verbatim. -/
theorem analyze_schema_ok_200_declared_fields (key : String)
    (f s b : UploadFile) (content : String) (j : Json)
    (fields : List (String × Json)) (hk : ¬ key = "")
    (hf₁ : f.content_type ∈ ALLOWED_MIME) (hf₂ : f.data ≠ [])
    (hf₃ : f.data.length ≤ MAX_BYTES)
    (hs₁ : s.content_type ∈ ALLOWED_MIME) (hs₂ : s.data ≠ [])
    (hs₃ : s.data.length ≤ MAX_BYTES)
    (hb₁ : b.content_type ∈ ALLOWED_MIME) (hb₂ : b.data ≠ [])
    (hb₃ : b.data.length ≤ MAX_BYTES)
    (hc : ¬ content = "") (hparse : jsonLoads content = some j)
    (hval : validateReport j = .ok fields) :
    (analyze key f s b (.completed (some content))).1 =
      ⟨200, .obj fields⟩ ∧
    fields.map Prod.fst =
      ["overallScore", "confidence", "summary", "natty", "ratios",
       "posture", "quality", "completedAt"] ∧
    List.Forall₂
      (fun spec p => spec.1 = p.1 ∧
        ∃ w, j.lookup spec.1 = some w ∧ spec.2 w = some p.2)
      reportFields fields := by
  have h := analyze_valid key f s b (.completed (some content)) hk hf₁ hf₂ hf₃
    hs₁ hs₂ hs₃ hb₁ hb₂ hb₃
  have hstage : providerStage (.completed (some content)) =
      ⟨200, .obj fields⟩ := by
    simp [providerStage, hc, hparse, hval]
  have spec := validateReport_ok_spec j fields hval
  rw [h, hstage]
  exact ⟨rfl, spec.1, spec.2⟩

theorem analyze_schema_ok_200_declared_fields_witness :
    (¬ ("k" : String) = "" ∧ ¬ coercedReportStr = "" ∧
     jsonLoads coercedReportStr = some coercedReportJson ∧
     validateReport coercedReportJson = .ok coercedReportFields) ∧
    ((analyze "k" tinyPng tinyPng tinyPng
        (.completed (some coercedReportStr))).1 =
      ⟨200, .obj coercedReportFields⟩ ∧
     coercedReportFields.map Prod.fst =
       ["overallScore", "confidence", "summary", "natty", "ratios",
        "posture", "quality", "completedAt"] ∧
     List.Forall₂
       (fun spec p => spec.1 = p.1 ∧
         ∃ w, coercedReportJson.lookup spec.1 = some w ∧ spec.2 w = some p.2)
       reportFields coercedReportFields) :=
  ⟨⟨by decide, by decide, by rfl, by rfl⟩,
   analyze_schema_ok_200_declared_fields "k" tinyPng tinyPng tinyPng
     coercedReportStr coercedReportJson coercedReportFields (by decide)
     (by decide) (by decide) (by decide) (by decide) (by decide) (by decide)
     (by decide) (by decide) (by decide) (by decide) (by rfl) (by rfl)⟩

/-- C9: a valid upload whose content type is `image/heic`, `image/heif` or
`image/png` is forwarded as a data URL labelled `image/png` over the
unmodified base64-encoded bytes (no transcoding); `image/jpeg` and
`image/jpg` are labelled `image/jpeg`; and any content type containing
neither `jpeg` nor `jpg` as a substring gets the `image/png` label. -/
theorem dataUrl_mime_label_spec :
    (∀ (img : UploadFile) (field : String),
        img.content_type ∈ ["image/heic", "image/heif", "image/png"] →
        img.data ≠ [] → img.data.length ≤ MAX_BYTES →
        (validate_and_b64 img field).1 =
          .ok ("data:image/png;base64," ++ b64Encode img.data)) ∧
    (∀ (img : UploadFile) (field : String),
        img.content_type ∈ ["image/jpeg", "image/jpg"] →
        img.data ≠ [] → img.data.length ≤ MAX_BYTES →
        (validate_and_b64 img field).1 =
          .ok ("data:image/jpeg;base64," ++ b64Encode img.data)) ∧
    (∀ ct : String, pyIn "jpeg" ct = false → pyIn "jpg" ct = false →
        dataUrlMime ct = "image/png") := by
  refine ⟨?_, ?_, ?_⟩
  · intro img field hct hne hlen
    obtain h | h | h : img.content_type = "image/heic" ∨
        img.content_type = "image/heif" ∨ img.content_type = "image/png" := by
      simpa using hct
    all_goals
      have hmem : img.content_type ∈ ALLOWED_MIME := by
        simp [ALLOWED_MIME, h]
      have hmime : dataUrlMime img.content_type = "image/png" := by
        rw [h]; rfl
      rw [validate_ok img field hmem hne hlen]
      simp [dataUrl, hmime]
  · intro img field hct hne hlen
    obtain h | h : img.content_type = "image/jpeg" ∨
        img.content_type = "image/jpg" := by
      simpa using hct
    all_goals
      have hmem : img.content_type ∈ ALLOWED_MIME := by
        simp [ALLOWED_MIME, h]
      have hmime : dataUrlMime img.content_type = "image/jpeg" := by
        rw [h]; rfl
      rw [validate_ok img field hmem hne hlen]
      simp [dataUrl, hmime]
  · intro ct h₁ h₂
    simp [dataUrlMime, h₁, h₂]

theorem dataUrl_mime_label_spec_witness :
    (tinyHeic.content_type ∈ ["image/heic", "image/heif", "image/png"] ∧
     tinyHeic.data ≠ [] ∧ tinyHeic.data.length ≤ MAX_BYTES ∧
     tinyJpeg.content_type ∈ ["image/jpeg", "image/jpg"] ∧
     tinyJpeg.data ≠ [] ∧ tinyJpeg.data.length ≤ MAX_BYTES ∧
     pyIn "jpeg" "image/heif" = false ∧ pyIn "jpg" "image/heif" = false) ∧
    ((validate_and_b64 tinyHeic "front").1 =
        .ok ("data:image/png;base64," ++ b64Encode tinyHeic.data) ∧
     (validate_and_b64 tinyJpeg "front").1 =
        .ok ("data:image/jpeg;base64," ++ b64Encode tinyJpeg.data) ∧
     dataUrlMime "image/heif" = "image/png") :=
  ⟨⟨by decide, by decide, by decide, by decide, by decide, by decide,
    by rfl, by rfl⟩,
   dataUrl_mime_label_spec.1 tinyHeic "front" (by decide) (by decide)
     (by decide),
   dataUrl_mime_label_spec.2.1 tinyJpeg "front" (by decide) (by decide)
     (by decide),
   dataUrl_mime_label_spec.2.2 "image/heif" (by rfl) (by rfl)⟩

end NattyCheck
